import Mathlib

/-!
Verification of the browser-bot active-page resolution and connection-lifecycle
protocol (`browser_bot.py`), as a shallow embedding in Lean.

Stateful effects of the Python code are made explicit:
exceptions become `Except`, the number of `browser.close()` invocations is
threaded as a `Nat`, navigation (`page.goto`) calls are recorded as a list of
URLs, and the outcomes of external calls that may fail (the liveness probe,
`page.title()`, `page.evaluate`, `page.goto`, the load-state waits, the agent
run) are inputs of the model, so that every control path of the source is a
case of the Lean definitions.
-/

namespace BrowserBot

/-- Python `str.lower()` restricted to the ASCII casing used by the source. -/
def strToLower (s : String) : String := ⟨s.data.map Char.toLower⟩

/-- Python `str.startswith(p)`. -/
def strStartsWith (s p : String) : Bool := p.data.isPrefixOf s.data

/-- The `BrowserBotError` family of `browser_bot.py` (lines 44-63), plus a
constructor for exceptions outside the family that operations let propagate. -/
inductive BotError where
  | browserRuntimeError (msg : String)
  | taskAborted (msg : String)
  | taskFailed (msg : String)
  | other (msg : String)
deriving DecidableEq

/-- Outcome of the single HTTP probe issued by `_check_chrome_running`
(browser_bot.py:119-148): a 200 response, a non-200 response, a connection
error, a timeout, or any other exception (with its class name and message). -/
inductive ProbeOutcome where
  | ok200
  | badStatus (code : Nat)
  | connectError
  | timedOut
  | unexpected (cls msg : String)
deriving DecidableEq

/-- Environment-derived configuration together with the probe's outcome. -/
structure Env where
  useRemote : Bool
  chromeDebugUrl : String
  probe : ProbeOutcome
deriving DecidableEq

/-- A Playwright page as observed by the source code.  `is_closed()` is read at
three distinct moments (browser_bot.py:351, 430, 449) and can change between
reads, so each observation is a separate field.  The outcomes of `page.title()`
(line 449), `page.evaluate` (line 453, with each returned field optional) and
`page.goto` (line 399) are inputs of the model. -/
structure Page where
  url : String
  isClosedAtEnum : Bool
  isClosedAtRank : Bool
  isClosedAtTitle : Bool
  titleOk : Bool
  title : String
  evalOk : Bool
  evHasFocus : Option Bool
  evVisibilityState : Option String
  evTimestamp : Option Nat
  gotoOk : Bool
deriving DecidableEq

/-- A connected browser: its contexts (each a list of pages, browser_bot.py:337,
348-349) and the page `browser.new_page()` would produce (line 384). -/
structure Browser where
  contexts : List (List Page)
  newPage : Page
deriving DecidableEq

/-- One entry of the `page_info` list built by `_find_most_recent_active_page`
(browser_bot.py:467-478). -/
structure PageInfo where
  page : Page
  url : String
  title : String
  has_focus : Bool
  visibility_state : String
  timestamp : Nat
deriving DecidableEq

/-- The reserved-scheme test of browser_bot.py:354-361 and 437-444. -/
def reservedScheme (u : String) : Bool :=
  strStartsWith u "devtools://" || strStartsWith u "chrome://" ||
    strStartsWith u "chrome-extension://" || strStartsWith u "moz-extension://"

/-- Page enumeration (browser_bot.py:346-366): every page of every context that
is not observed closed and whose URL does not start with a reserved scheme. -/
def allEligiblePages (b : Browser) : List Page :=
  (b.contexts.map (fun ctx =>
    ctx.filter (fun p => !p.isClosedAtEnum && !reservedScheme p.url))).flatten

/-- Python's `False < True` as a number, as used when sorting by a tuple whose
components include booleans. -/
def boolNat (b : Bool) : Nat := if b then 1 else 0

/-- The sort key of browser_bot.py:493-498:
`(has_focus, visibility_state == 'visible', timestamp)`. -/
def pageKey (x : PageInfo) : Nat × Nat × Nat :=
  (boolNat x.has_focus, boolNat (x.visibility_state = "visible"), x.timestamp)

/-- Lexicographic `≤` on the sort key, matching Python tuple comparison. -/
def LexLe (a b : Nat × Nat × Nat) : Prop :=
  a.1 < b.1 ∨ (a.1 = b.1 ∧ (a.2.1 < b.2.1 ∨ (a.2.1 = b.2.1 ∧ a.2.2 ≤ b.2.2)))

/-- Lexicographic `<` on the sort key. -/
def LexLt (a b : Nat × Nat × Nat) : Prop :=
  a.1 < b.1 ∨ (a.1 = b.1 ∧ (a.2.1 < b.2.1 ∨ (a.2.1 = b.2.1 ∧ a.2.2 < b.2.2)))

instance (a b : Nat × Nat × Nat) : Decidable (LexLe a b) := by
  unfold LexLe; exact inferInstance

instance (a b : Nat × Nat × Nat) : Decidable (LexLt a b) := by
  unfold LexLt; exact inferInstance

theorem lexLe_refl (a : Nat × Nat × Nat) : LexLe a a := by
  unfold LexLe; omega

theorem lexLt_of_not_lexLe {a b : Nat × Nat × Nat} (h : ¬ LexLe a b) : LexLt b a := by
  unfold LexLe at h; unfold LexLt; omega

theorem not_lexLe_of_lexLt {a b : Nat × Nat × Nat} (h : LexLt a b) : ¬ LexLe b a := by
  unfold LexLt at h; unfold LexLe; omega

theorem lexLe_of_lexLt {a b : Nat × Nat × Nat} (h : LexLt a b) : LexLe a b := by
  unfold LexLt at h; unfold LexLe; omega

theorem lexLe_of_fst_lt {a b : Nat × Nat × Nat} (h : a.1 < b.1) : LexLe a b := by
  unfold LexLe; omega

theorem lexLt_of_fst_lt {a b : Nat × Nat × Nat} (h : a.1 < b.1) : LexLt a b := by
  unfold LexLt; omega

/-- One insertion step of a stable descending sort by `pageKey`: the new
element goes in front of the first element whose key is `≤` its own, so equal
keys keep their original relative order.  This is the observable behaviour of
Python's stable `list.sort(key=..., reverse=True)` in browser_bot.py:493-500. -/
def insertByKeyDesc (a : PageInfo) : List PageInfo → List PageInfo
  | [] => [a]
  | b :: bs => if LexLe (pageKey b) (pageKey a) then a :: b :: bs else b :: insertByKeyDesc a bs

/-- Stable descending sort by `pageKey` (browser_bot.py:493-500). -/
def sortByKeyDesc (l : List PageInfo) : List PageInfo :=
  l.foldr insertByKeyDesc []

/-- The metadata-collection body of the `for page in pages` loop of
`_find_most_recent_active_page` (browser_bot.py:428-484).  `none` means the
page was skipped (`continue`), either by the closed/reserved-scheme checks or
because `page.title()` or `page.evaluate` raised; the per-page `except` turns
any such exception into a skip. The title is the sentinel `"Unknown"` exactly
when the page is observed closed at the title read (line 449). -/
def collectPageInfo (p : Page) : Option PageInfo :=
  if p.isClosedAtRank then none
  else if reservedScheme p.url then none
  else
    match (if p.isClosedAtTitle then some "Unknown"
           else if p.titleOk then some p.title else none) with
    | none => none
    | some t =>
        if p.evalOk then
          some { page := p, url := p.url, title := t,
                 has_focus := p.evHasFocus.getD false,
                 visibility_state := p.evVisibilityState.getD "hidden",
                 timestamp := p.evTimestamp.getD 0 }
        else none

/-- The `page_info` list of browser_bot.py:427-484: the metadata of the pages
that yielded any, in enumeration order. -/
def pageInfos (pages : List Page) : List PageInfo :=
  pages.filterMap collectPageInfo

/-- Model of `_find_most_recent_active_page` (browser_bot.py:415-518): collect metadata,
return `none` if no page yielded any, otherwise sort descending by the key and
return the page of the first entry. -/
def find_most_recent_active_page (pages : List Page) : Option Page :=
  if (pageInfos pages).isEmpty then none
  else ((sortByKeyDesc (pageInfos pages)).head?).map PageInfo.page

/-- The first element of maximal key of a list, ties resolved towards the
earlier element — the specification of the head of a stable descending sort. -/
def firstArgmax : List PageInfo → Option PageInfo
  | [] => none
  | a :: t =>
      match firstArgmax t with
      | none => some a
      | some m => if LexLe (pageKey m) (pageKey a) then some a else some m

theorem insertByKeyDesc_ne_nil (a : PageInfo) (s : List PageInfo) :
    insertByKeyDesc a s ≠ [] := by
  cases s with
  | nil => simp [insertByKeyDesc]
  | cons b bs =>
      unfold insertByKeyDesc
      by_cases h : LexLe (pageKey b) (pageKey a) <;> simp [h]

theorem sortByKeyDesc_eq_nil {l : List PageInfo} (h : sortByKeyDesc l = []) : l = [] := by
  cases l with
  | nil => rfl
  | cons a t => exact absurd h (insertByKeyDesc_ne_nil a (sortByKeyDesc t))

theorem head_sortByKeyDesc (l : List PageInfo) :
    (sortByKeyDesc l).head? = firstArgmax l := by
  induction l with
  | nil => rfl
  | cons a t ih =>
      show (insertByKeyDesc a (sortByKeyDesc t)).head? = _
      cases hs : sortByKeyDesc t with
      | nil =>
          have ht : t = [] := sortByKeyDesc_eq_nil hs
          subst ht
          rfl
      | cons b bs =>
          have hb : firstArgmax t = some b := by
            rw [← ih, hs]; rfl
          unfold firstArgmax
          rw [hb]
          unfold insertByKeyDesc
          by_cases h : LexLe (pageKey b) (pageKey a) <;> simp [h]

theorem firstArgmax_mem {l : List PageInfo} {m : PageInfo}
    (h : firstArgmax l = some m) : m ∈ l := by
  induction l with
  | nil => simp [firstArgmax] at h
  | cons a t ih =>
      unfold firstArgmax at h
      cases hm : firstArgmax t with
      | none => rw [hm] at h; simp at h; simp [h]
      | some b =>
          rw [hm] at h
          by_cases hle : LexLe (pageKey b) (pageKey a)
          · simp [hle] at h; simp [h]
          · simp [hle] at h
            exact List.mem_cons_of_mem a (ih (hm.trans (by rw [h])))

theorem exists_first_index_of_mem {x : PageInfo} {l : List PageInfo} (h : x ∈ l) :
    ∃ i, ∃ hi : i < l.length, l.get ⟨i, hi⟩ = x ∧
      ∀ (j : Fin l.length), j.val < i → l.get j ≠ x := by
  induction l with
  | nil => cases h
  | cons a t ih =>
      by_cases hax : a = x
      · exact ⟨0, Nat.succ_pos _, hax, fun j hj => absurd hj (Nat.not_lt_zero _)⟩
      · have hxt : x ∈ t := by
          rcases List.mem_cons.mp h with h1 | h2
          · exact absurd h1.symm hax
          · exact h2
        obtain ⟨i, hi, hget, hbefore⟩ := ih hxt
        refine ⟨i + 1, Nat.succ_lt_succ hi, hget, ?_⟩
        intro j hj
        match j with
        | ⟨0, _⟩ => exact fun hc => hax hc
        | ⟨j' + 1, hj'⟩ =>
            exact hbefore ⟨j', Nat.lt_of_succ_lt_succ hj'⟩ (Nat.lt_of_succ_lt_succ hj)

theorem firstArgmax_first_max (l : List PageInfo) (i : Nat) (hi : i < l.length)
    (hmax : ∀ (j : Fin l.length), LexLe (pageKey (l.get j)) (pageKey (l.get ⟨i, hi⟩)))
    (hfirst : ∀ (j : Fin l.length), j.val < i →
      LexLt (pageKey (l.get j)) (pageKey (l.get ⟨i, hi⟩))) :
    firstArgmax l = some (l.get ⟨i, hi⟩) := by
  induction l generalizing i with
  | nil => exact absurd hi (Nat.not_lt_zero _)
  | cons a t ih =>
      cases i with
      | zero =>
          unfold firstArgmax
          cases hm : firstArgmax t with
          | none => rfl
          | some m =>
              have hmem : m ∈ t := firstArgmax_mem hm
              obtain ⟨⟨j, hj⟩, hget⟩ := List.mem_iff_get.mp hmem
              have hle := hmax ⟨j + 1, Nat.succ_lt_succ hj⟩
              have hgj : (a :: t).get ⟨j + 1, Nat.succ_lt_succ hj⟩ = m := hget
              have hga : (a :: t).get ⟨0, hi⟩ = a := rfl
              rw [hgj, hga] at hle
              rw [hga]
              show (if LexLe (pageKey m) (pageKey a) then some a else some m) = some a
              rw [if_pos hle]
      | succ i' =>
          have hi' : i' < t.length := Nat.lt_of_succ_lt_succ hi
          have hmax' : ∀ (j : Fin t.length),
              LexLe (pageKey (t.get j)) (pageKey (t.get ⟨i', hi'⟩)) := fun j =>
            hmax ⟨j.val + 1, Nat.succ_lt_succ j.isLt⟩
          have hfirst' : ∀ (j : Fin t.length), j.val < i' →
              LexLt (pageKey (t.get j)) (pageKey (t.get ⟨i', hi'⟩)) := fun j hj =>
            hfirst ⟨j.val + 1, Nat.succ_lt_succ j.isLt⟩ (Nat.succ_lt_succ hj)
          have ht := ih i' hi' hmax' hfirst'
          have h0 : LexLt (pageKey a) (pageKey (t.get ⟨i', hi'⟩)) :=
            hfirst ⟨0, Nat.succ_pos _⟩ (Nat.succ_pos _)
          have hga : (a :: t).get ⟨i' + 1, hi⟩ = t.get ⟨i', hi'⟩ := rfl
          unfold firstArgmax
          rw [ht, hga]
          show (if LexLe (pageKey (t.get ⟨i', hi'⟩)) (pageKey a) then some a
                else some (t.get ⟨i', hi'⟩)) = some (t.get ⟨i', hi'⟩)
          rw [if_neg (not_lexLe_of_lexLt h0)]

theorem firstArgmax_unique_focus {l : List PageInfo} {x : PageInfo}
    (hx : x ∈ l) (hf : x.has_focus = true)
    (huniq : ∀ y ∈ l, y.has_focus = true → y = x) :
    firstArgmax l = some x := by
  obtain ⟨i, hi, hget, hbefore⟩ := exists_first_index_of_mem hx
  have key_lt : ∀ y : PageInfo, y.has_focus = false → LexLt (pageKey y) (pageKey x) := by
    intro y hy
    apply lexLt_of_fst_lt
    simp [pageKey, boolNat, hy, hf]
  have hres := firstArgmax_first_max l i hi ?_ ?_
  · rw [hget] at hres; exact hres
  · intro j
    rw [hget]
    cases hcy : (l.get j).has_focus with
    | true => rw [huniq _ (l.get_mem j.val j.isLt) hcy]; exact lexLe_refl _
    | false => exact lexLe_of_lexLt (key_lt _ hcy)
  · intro j hj
    rw [hget]
    cases hcy : (l.get j).has_focus with
    | true => exact absurd (huniq _ (l.get_mem j.val j.isLt) hcy) (hbefore j hj)
    | false => exact key_lt _ hcy

theorem find_eq_of_firstArgmax {pages : List Page} {x : PageInfo}
    (h : firstArgmax (pageInfos pages) = some x) :
    find_most_recent_active_page pages = some x.page := by
  unfold find_most_recent_active_page
  cases hinf : pageInfos pages with
  | nil => rw [hinf] at h; simp [firstArgmax] at h
  | cons a t =>
      rw [hinf] at h
      rw [if_neg (by simp : ¬ (a :: t).isEmpty = true)]
      rw [head_sortByKeyDesc, h]
      rfl

theorem lexLe_nofocus {y x : PageInfo} (hy : y.has_focus = false)
    (hx : x.has_focus = false) (hxv : x.visibility_state = "visible")
    (hts : y.visibility_state = "visible" → y.timestamp ≤ x.timestamp) :
    LexLe (pageKey y) (pageKey x) := by
  by_cases hyv : y.visibility_state = "visible"
  · have := hts hyv
    simp [pageKey, boolNat, hy, hx, hxv, hyv, LexLe]
    omega
  · simp [pageKey, boolNat, hy, hx, hxv, hyv, LexLe]

theorem lexLt_nofocus {y x : PageInfo} (hy : y.has_focus = false)
    (hx : x.has_focus = false) (hxv : x.visibility_state = "visible")
    (hts : y.visibility_state = "visible" → y.timestamp < x.timestamp) :
    LexLt (pageKey y) (pageKey x) := by
  by_cases hyv : y.visibility_state = "visible"
  · have := hts hyv
    simp [pageKey, boolNat, hy, hx, hxv, hyv, LexLt]
    omega
  · simp [pageKey, boolNat, hy, hx, hxv, hyv, LexLt]

/-- C2: active-page selection sorts the pages that yielded metadata in
descending lexicographic order of `(hasFocus, visibilityState = "visible",
timestampMillis)` and returns the first element; when exactly one such page has
focus it is selected regardless of the other signals; when no page has focus,
the visible page with the highest timestamp is selected, ties broken by
original enumeration order (stable sort). -/
theorem c2_active_page_selection (pages : List Page) :
    (find_most_recent_active_page pages =
      ((sortByKeyDesc (pageInfos pages)).head?).map PageInfo.page)
    ∧ (∀ x ∈ pageInfos pages, x.has_focus = true →
        (∀ y ∈ pageInfos pages, y.has_focus = true → y = x) →
        find_most_recent_active_page pages = some x.page)
    ∧ ((∀ y ∈ pageInfos pages, y.has_focus = false) →
        ∀ i (hi : i < (pageInfos pages).length),
          ((pageInfos pages).get ⟨i, hi⟩).visibility_state = "visible" →
          (∀ (j : Fin (pageInfos pages).length),
              ((pageInfos pages).get j).visibility_state = "visible" →
              ((pageInfos pages).get j).timestamp ≤
                ((pageInfos pages).get ⟨i, hi⟩).timestamp) →
          (∀ (j : Fin (pageInfos pages).length), j.val < i →
              ((pageInfos pages).get j).visibility_state = "visible" →
              ((pageInfos pages).get j).timestamp <
                ((pageInfos pages).get ⟨i, hi⟩).timestamp) →
          find_most_recent_active_page pages =
            some (((pageInfos pages).get ⟨i, hi⟩).page)) := by
  refine ⟨?_, ?_, ?_⟩
  · unfold find_most_recent_active_page
    cases hinf : pageInfos pages with
    | nil => rfl
    | cons a t => rfl
  · intro x hx hf huniq
    exact find_eq_of_firstArgmax (firstArgmax_unique_focus hx hf huniq)
  · intro hnof i hi hvis hmaxts hfirstts
    refine find_eq_of_firstArgmax (firstArgmax_first_max _ i hi ?_ ?_)
    · intro j
      exact lexLe_nofocus (hnof _ (List.get_mem _ j.val j.isLt))
        (hnof _ (List.get_mem _ i hi)) hvis (hmaxts j)
    · intro j hj
      exact lexLt_nofocus (hnof _ (List.get_mem _ j.val j.isLt))
        (hnof _ (List.get_mem _ i hi)) hvis (hfirstts j hj)

/-- Sample page matching the spec scenario `[A: hasFocus=false, visible, t=100]`. -/
def samplePageA : Page :=
  { url := "https://example.com/a", isClosedAtEnum := false, isClosedAtRank := false,
    isClosedAtTitle := false, titleOk := true, title := "A", evalOk := true,
    evHasFocus := some false, evVisibilityState := some "visible",
    evTimestamp := some 100, gotoOk := true }

/-- Sample page matching the spec scenario `[B: hasFocus=true, hidden, t=50]`. -/
def samplePageB : Page :=
  { url := "https://example.com/b", isClosedAtEnum := false, isClosedAtRank := false,
    isClosedAtTitle := false, titleOk := true, title := "B", evalOk := true,
    evHasFocus := some true, evVisibilityState := some "hidden",
    evTimestamp := some 50, gotoOk := true }

theorem c2_active_page_selection_witness :
    find_most_recent_active_page [samplePageA, samplePageB] = some samplePageB :=
  (c2_active_page_selection [samplePageA, samplePageB]).2.1
    { page := samplePageB, url := samplePageB.url, title := "B",
      has_focus := true, visibility_state := "hidden", timestamp := 50 }
    (by decide) rfl (by decide)

/-- The load-state waiter `_page_wait_for_load_state` (browser_bot.py:66-102).
The outcome of each underlying `page.wait_for_load_state(s, timeout=t)` call is
given by `waitOk s t` (`false` meaning a `PlaywrightTimeoutError`); the result
pairs the returned load state with the list of wait attempts issued. -/
def page_wait_for_load_state (waitOk : String → Nat → Bool) (state : String)
    (waitTimeout : Nat) : String × List (String × Nat) :=
  if waitOk state waitTimeout then (state, [(state, waitTimeout)])
  else if state = "networkidle" then
    if waitOk "domcontentloaded" 5000 then
      ("domcontentloaded", [(state, waitTimeout), ("domcontentloaded", 5000)])
    else ("skipped", [(state, waitTimeout), ("domcontentloaded", 5000)])
  else ("skipped", [(state, waitTimeout)])

/-- C3: the load-state waiter returns the requested state when the wait
succeeds; on timeout with requested state `networkidle` it retries exactly once
for `domcontentloaded` with a 5000 ms timeout, returning `domcontentloaded` on
success and `skipped` on a second timeout; on timeout for any other requested
state it returns `skipped` directly with no retry; being a total function, a
timeout never makes it raise. -/
theorem c3_load_state_waiter (waitOk : String → Nat → Bool) (state : String)
    (waitTimeout : Nat) :
    (waitOk state waitTimeout = true →
      page_wait_for_load_state waitOk state waitTimeout = (state, [(state, waitTimeout)]))
    ∧ (waitOk state waitTimeout = false → state = "networkidle" →
        (waitOk "domcontentloaded" 5000 = true →
          page_wait_for_load_state waitOk state waitTimeout =
            ("domcontentloaded", [(state, waitTimeout), ("domcontentloaded", 5000)]))
        ∧ (waitOk "domcontentloaded" 5000 = false →
          page_wait_for_load_state waitOk state waitTimeout =
            ("skipped", [(state, waitTimeout), ("domcontentloaded", 5000)])))
    ∧ (waitOk state waitTimeout = false → state ≠ "networkidle" →
        page_wait_for_load_state waitOk state waitTimeout =
          ("skipped", [(state, waitTimeout)])) := by
  refine ⟨?_, ?_, ?_⟩
  · intro h
    simp [page_wait_for_load_state, h]
  · intro h1 h2
    subst h2
    constructor <;> intro h3 <;> simp [page_wait_for_load_state, h1, h3]
  · intro h1 h2
    simp [page_wait_for_load_state, h1, h2]

theorem c3_load_state_waiter_witness :
    page_wait_for_load_state (fun _ _ => false) "networkidle" 7000 =
      ("skipped", [("networkidle", 7000), ("domcontentloaded", 5000)]) :=
  ((c3_load_state_waiter (fun _ _ => false) "networkidle" 7000).2.1 rfl rfl).2 rfl

/-- The operator instruction shared by the unreachable/bad-status messages
(browser_bot.py:125-128, 132-135). -/
def launchInstruction : String :=
  "Chrome をデバッグポートで起動してから再度お試しください。"

/-- The message raised when the endpoint is unreachable or answers non-200. -/
def notRunningMsg (dbgUrl : String) : String :=
  "❌ エラー: Chrome が " ++ dbgUrl ++ " で起動していません。" ++ launchInstruction

/-- The message raised when the probe request times out (browser_bot.py:139). -/
def probeTimedOutMsg : String :=
  "❌ エラー: Chrome への接続がタイムアウトしました。Chrome が正常に起動しているか確認してください。"

/-- The message wrapping any other exception of the probe (browser_bot.py:143-146). -/
def probeUnexpectedMsg (cls msg : String) : String :=
  "❌ エラー: Chrome の起動確認中に予期しないエラーが発生しました: " ++ cls ++ ": " ++ msg

/-- Model of `_check_chrome_running` (browser_bot.py:105-152).  In remote mode the probe
is skipped and the function returns.  Otherwise: a 200 response is success; a
non-200 response raises `BrowserRuntimeError` inside the `try`, which the
catch-all `except` then re-wraps; a connect error or a timeout raise their
dedicated `BrowserRuntimeError`s; any other exception is wrapped with its class
name and message. -/
def check_chrome_running (env : Env) : Except BotError Unit :=
  if env.useRemote then .ok ()
  else
    match env.probe with
    | .ok200 => .ok ()
    | .badStatus _ =>
        .error (.browserRuntimeError
          (probeUnexpectedMsg "BrowserRuntimeError" (notRunningMsg env.chromeDebugUrl)))
    | .connectError => .error (.browserRuntimeError (notRunningMsg env.chromeDebugUrl))
    | .timedOut => .error (.browserRuntimeError probeTimedOutMsg)
    | .unexpected cls msg => .error (.browserRuntimeError (probeUnexpectedMsg cls msg))

/-- Model of `_get_browser_connection` (browser_bot.py:155-183): remote mode connects
through the grid-translated CDP URL (no probe); local mode probes first, then
connects.  The protocol-level connect itself is assumed to succeed. -/
def get_browser_connection (env : Env) (b : Browser) : Except BotError Browser :=
  if env.useRemote then .ok b
  else
    match check_chrome_running env with
    | .error e => .error e
    | .ok _ => .ok b

deriving instance DecidableEq for Except

/-- Result of `_get_active_page`: the outcome (resolved page or raised error),
the number of `browser.close()` invocations performed inside the function, a
flag recording whether the page-enumeration step (`browser.contexts`,
browser_bot.py:337) was reached, and the list of `page.goto` calls issued. -/
structure Resolution where
  outcome : Except BotError Page
  closes : Nat
  enumerated : Bool
  gotoUrls : List String
deriving DecidableEq

/-- The sentinel normalization of browser_bot.py:329-330:
`if url and url.lower() in {'null', 'none', 'undefined', ''}: url = None`. -/
def normalizeNavUrl : Option String → Option String
  | none => none
  | some u =>
      if u ≠ "" ∧ strToLower u ∈ ["null", "none", "undefined", ""] then none else some u

/-- Python truthiness of the `url` variable at browser_bot.py:397 (`if url:`). -/
def navRequested : Option String → Bool
  | none => false
  | some u => !(u == "")

def noContextsMsg : String := "❌ エラー: Chrome にアクティブなコンテキストがありません"

def noPagesMsg : String := "❌ エラー: Chrome にアクティブなページがありません"

/-- The wrapping applied by the catch-all handler of `_get_active_page`
(browser_bot.py:408-412) to the class name and text of the caught exception. -/
def resolutionWrapMsg (cls inner : String) : String :=
  "❌ エラー: アクティブページの取得中にエラーが発生しました: " ++ cls ++ ": " ++ inner

/-- The tail of `_get_active_page` (browser_bot.py:394-406) once a page has
been picked: navigate when `url` is truthy (a `page.goto` failure is caught by
the enclosing handler, which closes the browser once and re-raises a wrapped
`BrowserRuntimeError`), run the load-state waiter (which never raises), install
page logging (its failures are swallowed), and return the page. -/
def resolveWithPage (active : Page) (url : Option String) : Resolution :=
  if navRequested url then
    if active.gotoOk then
      { outcome := .ok active, closes := 0, enumerated := true, gotoUrls := [url.getD ""] }
    else
      { outcome := .error (.browserRuntimeError (resolutionWrapMsg "Error" "page.goto failed")),
        closes := 1, enumerated := true, gotoUrls := [url.getD ""] }
  else
    { outcome := .ok active, closes := 0, enumerated := true, gotoUrls := [] }

/-- Model of `_get_active_page` given an already-connected browser (the `try` block of
browser_bot.py:335-412).  On the no-contexts and no-eligible-pages failures the
browser is closed explicitly (lines 343, 391) and then a second time by the
catch-all handler (line 409) that re-wraps the raised `BrowserRuntimeError`. -/
def get_active_page (b : Browser) (url0 : Option String) (createNewPage : Bool) : Resolution :=
  let url := normalizeNavUrl url0
  if b.contexts.isEmpty then
    { outcome := .error (.browserRuntimeError (resolutionWrapMsg "BrowserRuntimeError" noContextsMsg)),
      closes := 2, enumerated := true, gotoUrls := [] }
  else
    match allEligiblePages b with
    | [] =>
        if createNewPage then resolveWithPage b.newPage url
        else
          { outcome := .error (.browserRuntimeError (resolutionWrapMsg "BrowserRuntimeError" noPagesMsg)),
            closes := 2, enumerated := true, gotoUrls := [] }
    | first :: rest =>
        resolveWithPage ((find_most_recent_active_page (first :: rest)).getD first) url

/-- Model of `_get_active_page` including the connection step (browser_bot.py:332-333):
a probe failure propagates before the page-enumeration step is reached. -/
def get_active_page_full (env : Env) (b : Browser) (url : Option String)
    (createNewPage : Bool) : Resolution :=
  match get_browser_connection env b with
  | .error e => { outcome := .error e, closes := 0, enumerated := false, gotoUrls := [] }
  | .ok conn => get_active_page conn url createNewPage

def bodyFailedMsg : String := "operation body raised"

/-- The shared shape of the public operations that resolve a page through
`_get_active_page` and close the browser in a `finally` block (get_page_source,
get_visible_screenshot, get_full_screenshot, get_current_url, super_reload,
run_script, run_python_script).  `bodyOk` is the outcome of the operation body;
`wrapBody` tells whether a body exception is re-wrapped in
`BrowserBotTaskFailedError` (get_current_url, super_reload, run_script,
run_python_script) or propagates unchanged (get_page_source and the two
screenshots, browser_bot.py:610-641, 676-742, 769-817).  The second component
counts the `browser.close()` invocations of the whole operation. -/
def scopedOperation (env : Env) (b : Browser) (url : Option String)
    (createNewPage wrapBody bodyOk : Bool) : Except BotError Unit × Nat :=
  let r := get_active_page_full env b url createNewPage
  match r.outcome with
  | .error e => (.error e, r.closes)
  | .ok _ =>
      (if bodyOk then .ok ()
       else if wrapBody then .error (.taskFailed bodyFailedMsg)
       else .error (.other bodyFailedMsg),
       r.closes + 1)

/-- Model of `get_page_source` (browser_bot.py:591-641). -/
def get_page_source (env : Env) (b : Browser) (url : Option String)
    (bodyOk : Bool) : Except BotError Unit × Nat :=
  scopedOperation env b url true false bodyOk

/-- Model of `get_visible_screenshot` (browser_bot.py:644-742). -/
def get_visible_screenshot (env : Env) (b : Browser) (url : Option String)
    (bodyOk : Bool) : Except BotError Unit × Nat :=
  scopedOperation env b url true false bodyOk

/-- Model of `get_full_screenshot` (browser_bot.py:745-817). -/
def get_full_screenshot (env : Env) (b : Browser) (url : Option String)
    (bodyOk : Bool) : Except BotError Unit × Nat :=
  scopedOperation env b url true false bodyOk

/-- Model of `get_current_url` (browser_bot.py:820-857): `create_new_page=False`,
no navigation, body exceptions wrapped in `BrowserBotTaskFailedError`. -/
def get_current_url (env : Env) (b : Browser) (bodyOk : Bool) :
    Except BotError Unit × Nat :=
  scopedOperation env b none false true bodyOk

/-- Model of `super_reload` (browser_bot.py:860-930): an extra `_check_chrome_running`
before the scoped block. -/
def super_reload (env : Env) (b : Browser) (url : Option String)
    (bodyOk : Bool) : Except BotError Unit × Nat :=
  match check_chrome_running env with
  | .error e => (.error e, 0)
  | .ok _ => scopedOperation env b url true true bodyOk

/-- Model of `run_script` (browser_bot.py:1022-1082): an empty script aborts before any
browser interaction. -/
def run_script (script : String) (env : Env) (b : Browser) (url : Option String)
    (bodyOk : Bool) : Except BotError Unit × Nat :=
  if script = "" then
    (.error (.taskAborted "実行する JavaScript が指定されていません。"), 0)
  else
    match check_chrome_running env with
    | .error e => (.error e, 0)
    | .ok _ => scopedOperation env b url true true bodyOk

/-- Model of `run_python_script` (browser_bot.py:1085-1147). -/
def run_python_script (scriptText : String) (env : Env) (b : Browser)
    (url : Option String) (bodyOk : Bool) : Except BotError Unit × Nat :=
  if scriptText = "" then
    (.error (.taskAborted "実行する Python スクリプトが指定されていません。"), 0)
  else
    match check_chrome_running env with
    | .error e => (.error e, 0)
    | .ok _ => scopedOperation env b url true true bodyOk

/-- The HTTP methods accepted by `request` (browser_bot.py:1285-1293). -/
def httpMethods : List String := ["get", "post", "put", "delete", "patch", "head", "options"]

def unsupportedMethodMsg (m : String) : String :=
  "❌ エラー: サポートされていない HTTP メソッドです: " ++ m

/-- Result of `request`: outcome, number of `browser.close()` invocations, and
whether a browser connection was opened at all. -/
structure RequestResult where
  outcome : Except BotError Unit
  closes : Nat
  connectionOpened : Bool
deriving DecidableEq

/-- Model of `request` (browser_bot.py:1257-1320): probe first, then lowercase and
validate the method, then resolve a page through `_get_active_page` — with no
`try/finally` and no `browser.close()` call of its own. -/
def request (env : Env) (b : Browser) (method : String)
    (preloadUrl : Option String) (bodyOk : Bool) : RequestResult :=
  match check_chrome_running env with
  | .error e => ⟨.error e, 0, false⟩
  | .ok _ =>
      let m := strToLower method
      if m ∈ httpMethods then
        let r := get_active_page_full env b preloadUrl true
        match r.outcome with
        | .error e => ⟨.error e, r.closes, true⟩
        | .ok _ => ⟨if bodyOk then .ok () else .error (.other bodyFailedMsg), r.closes, true⟩
      else ⟨.error (.taskAborted (unsupportedMethodMsg m)), 0, false⟩

/-- Outcome of `agent.run(max_steps=...)` under `asyncio.wait_for`
(browser_bot.py:294-310). -/
inductive AgentOutcome where
  | success (result : String)
  | timedOut
  | failed (cls msg : String)
deriving DecidableEq

/-- The external outcomes consumed by `run_task`. -/
structure RunTaskWorld where
  env : Env
  startOk : Bool
  agent : AgentOutcome
deriving DecidableEq

/-- Result of `run_task`: outcome, the wall-clock timeout handed to
`asyncio.wait_for` (0 when never reached), the number of close/stop calls
issued on the `BrowserSession`, and the `page.goto` calls issued. -/
structure RunTaskResult where
  outcome : Except BotError String
  timeoutSeconds : Nat
  sessionCloses : Nat
  gotoUrls : List String
deriving DecidableEq

def agentTimedOutMsg (t : Nat) : String :=
  "❌ エラー: エージェント実行が" ++ toString t ++ "秒でタイムアウトしました"

def agentFailedMsg (cls msg : String) : String :=
  "❌ エラー: エージェント実行中にエラーが発生しました: " ++ cls ++ ": " ++ msg

/-- Model of `run_task` (browser_bot.py:212-310): local mode probes first; the session
is started and the current page waited on (`startOk`; a failure there raises
`BrowserBotTaskFailedError`); a truthy `url` — with no sentinel normalization —
is navigated to, navigation errors being swallowed; the agent then runs under
`asyncio.wait_for` with `timeout_seconds = max_steps * 6`.  No path stops or
closes the `BrowserSession`. -/
def run_task (w : RunTaskWorld) (maxSteps : Option Nat) (envMaxSteps : Nat)
    (url : Option String) : RunTaskResult :=
  let max_steps := maxSteps.getD envMaxSteps
  match check_chrome_running w.env with
  | .error e => ⟨.error e, 0, 0, []⟩
  | .ok _ =>
      if !w.startOk then
        ⟨.error (.taskFailed (agentFailedMsg "Exception" "session start failed")), 0, 0, []⟩
      else
        let gotos : List String :=
          match url with
          | some u => if u == "" then [] else [u]
          | none => []
        let t := max_steps * 6
        match w.agent with
        | .success r => ⟨.ok r, t, 0, gotos⟩
        | .timedOut => ⟨.error (.taskFailed (agentTimedOutMsg t)), t, 0, gotos⟩
        | .failed cls msg => ⟨.error (.taskFailed (agentFailedMsg cls msg)), t, 0, gotos⟩

/-- Local-mode environment whose probe answers 200. -/
def okEnv : Env :=
  { useRemote := false, chromeDebugUrl := "http://localhost:9222", probe := .ok200 }

/-- Local-mode environment whose probe connection is refused. -/
def downEnv : Env :=
  { useRemote := false, chromeDebugUrl := "http://localhost:9222", probe := .connectError }

/-- A browser with one context holding the two sample pages. -/
def sampleBrowser : Browser :=
  { contexts := [[samplePageA, samplePageB]], newPage := samplePageA }

/-- A browser with no contexts at all. -/
def emptyBrowser : Browser := { contexts := [], newPage := samplePageA }

/-- C5: the candidate set produced by page enumeration never contains a page
whose URL starts with a reserved scheme, nor a page observed closed at
enumeration time; its intersection with reserved-scheme URLs is empty. -/
theorem c5_enumeration_filter (b : Browser) :
    (∀ p ∈ allEligiblePages b, reservedScheme p.url = false ∧ p.isClosedAtEnum = false)
    ∧ (allEligiblePages b).filter (fun p => reservedScheme p.url) = [] := by
  have h1 : ∀ p ∈ allEligiblePages b,
      reservedScheme p.url = false ∧ p.isClosedAtEnum = false := by
    intro p hp
    rcases List.mem_flatten.mp hp with ⟨l, hl, hpl⟩
    rcases List.mem_map.mp hl with ⟨ctx, hctx, hfe⟩
    rw [← hfe] at hpl
    have hcond := (List.mem_filter.mp hpl).2
    simp only [Bool.and_eq_true, Bool.not_eq_true'] at hcond
    exact ⟨hcond.2, hcond.1⟩
  refine ⟨h1, ?_⟩
  rw [List.filter_eq_nil_iff]
  intro p hp
  simp [(h1 p hp).1]

theorem c5_enumeration_filter_witness :
    reservedScheme samplePageA.url = false ∧ samplePageA.isClosedAtEnum = false :=
  (c5_enumeration_filter sampleBrowser).1 samplePageA (by decide)

/-- C4 counterexample: a browser state with zero contexts has an empty
eligible-page inventory, yet active-page resolution with `create_new_page=true`
raises `BrowserRuntimeError` (the no-contexts failure) instead of returning a
newly created page. -/
theorem c4_no_contexts_counterexample :
    allEligiblePages emptyBrowser = []
    ∧ (get_active_page emptyBrowser none true).outcome =
        .error (.browserRuntimeError
          (resolutionWrapMsg "BrowserRuntimeError" noContextsMsg)) :=
  ⟨rfl, rfl⟩

/-- C4 amended: a zero-context browser fails with `BrowserRuntimeError`
regardless of `create_new_page`; for browser states with at least one context,
an empty eligible inventory fails with `BrowserRuntimeError` when creation is
disallowed and resolves to the newly created page when allowed; a non-empty
inventory always resolves to a page, falling back to the first eligible page
when ranking yields no usable metadata.  (No navigation URL is supplied: the
claim quantifies over browser states, not call arguments.) -/
theorem c4_inventory_policy_amended (b : Browser) :
    (b.contexts = [] → ∀ create : Bool,
      ∃ msg, (get_active_page b none create).outcome = .error (.browserRuntimeError msg))
    ∧ (b.contexts ≠ [] → allEligiblePages b = [] →
        (∃ msg, (get_active_page b none false).outcome = .error (.browserRuntimeError msg))
        ∧ (get_active_page b none true).outcome = .ok b.newPage)
    ∧ (∀ first rest, allEligiblePages b = first :: rest → ∀ create : Bool,
        (get_active_page b none create).outcome =
          .ok ((find_most_recent_active_page (first :: rest)).getD first)
        ∧ (find_most_recent_active_page (first :: rest) = none →
            (get_active_page b none create).outcome = .ok first)) := by
  refine ⟨?_, ?_, ?_⟩
  · intro hc create
    refine ⟨resolutionWrapMsg "BrowserRuntimeError" noContextsMsg, ?_⟩
    simp [get_active_page, List.isEmpty_iff, hc]
  · intro hc hel
    have hne : ¬ b.contexts.isEmpty = true := by
      simp [List.isEmpty_iff, hc]
    constructor
    · refine ⟨resolutionWrapMsg "BrowserRuntimeError" noPagesMsg, ?_⟩
      simp [get_active_page, hne, hel]
    · simp [get_active_page, hne, hel, resolveWithPage, normalizeNavUrl, navRequested]
  · intro first rest hel create
    have hc : b.contexts ≠ [] := by
      intro h
      have : allEligiblePages b = [] := by simp [allEligiblePages, h]
      rw [hel] at this
      cases this
    have hne : ¬ b.contexts.isEmpty = true := by
      simp [List.isEmpty_iff, hc]
    constructor
    · simp [get_active_page, hne, hel, resolveWithPage, normalizeNavUrl, navRequested]
    · intro hnone
      simp [get_active_page, hne, hel, resolveWithPage, normalizeNavUrl, navRequested, hnone]

theorem c4_inventory_policy_amended_witness :
    (∃ msg, (get_active_page { contexts := [[]], newPage := samplePageA } none false).outcome =
      .error (.browserRuntimeError msg))
    ∧ (get_active_page { contexts := [[]], newPage := samplePageA } none true).outcome =
        .ok samplePageA :=
  (c4_inventory_policy_amended { contexts := [[]], newPage := samplePageA }).2.1
    (by decide) rfl

/-- A page whose title read raises while every other signal would rank it
first. -/
def samplePageTitleErr : Page :=
  { url := "https://example.com/c", isClosedAtEnum := false, isClosedAtRank := false,
    isClosedAtTitle := false, titleOk := false, title := "", evalOk := true,
    evHasFocus := some true, evVisibilityState := some "visible",
    evTimestamp := some 1000, gotoOk := true }

/-- C6 counterexample: a page whose title read fails is dropped from ranking
rather than kept with title `"Unknown"` — although it has focus, visibility and
the highest timestamp, selection returns the other page. -/
theorem c6_title_failure_counterexample :
    collectPageInfo samplePageTitleErr = none
    ∧ find_most_recent_active_page [samplePageTitleErr, samplePageA] = some samplePageA := by
  constructor <;> rfl

/-- C6 amended: during selection, a page whose title read fails (while not
observed closed at that moment) is dropped from ranking, and dropping it is
local — selection over the remaining pages is unchanged and no error escalates;
the `"Unknown"` substitution happens exactly when the page is observed closed
at the title read, in which case the page stays under consideration if its
activity query still succeeds. -/
theorem c6_metadata_failure_amended (p : Page) (rest : List Page) :
    (p.titleOk = false → p.isClosedAtTitle = false →
      collectPageInfo p = none
      ∧ find_most_recent_active_page (p :: rest) = find_most_recent_active_page rest)
    ∧ (p.isClosedAtRank = false → reservedScheme p.url = false → p.isClosedAtTitle = true →
        p.evalOk = true →
        collectPageInfo p = some
          { page := p, url := p.url, title := "Unknown",
            has_focus := p.evHasFocus.getD false,
            visibility_state := p.evVisibilityState.getD "hidden",
            timestamp := p.evTimestamp.getD 0 }) := by
  constructor
  · intro h1 h2
    have hc : collectPageInfo p = none := by
      unfold collectPageInfo
      by_cases hr : p.isClosedAtRank = true
      · simp [hr]
      · by_cases hs : reservedScheme p.url = true
        · simp [hr, hs]
        · simp [hr, hs, h1, h2]
    refine ⟨hc, ?_⟩
    have hpi : pageInfos (p :: rest) = pageInfos rest := by
      unfold pageInfos
      rw [List.filterMap_cons_none hc]
    unfold find_most_recent_active_page
    rw [hpi]
  · intro hr hs ht he
    simp [collectPageInfo, hr, hs, ht, he]

theorem c6_metadata_failure_amended_witness :
    collectPageInfo samplePageTitleErr = none
    ∧ find_most_recent_active_page [samplePageTitleErr, samplePageA] =
        find_most_recent_active_page [samplePageA] :=
  (c6_metadata_failure_amended samplePageTitleErr [samplePageA]).1 rfl rfl

theorem notRunningMsg_length (u : String) : (notRunningMsg u).length = 59 + u.length := by
  unfold notRunningMsg
  rw [String.length_append, String.length_append, String.length_append]
  rw [show ("❌ エラー: Chrome が " : String).length = 16 from rfl]
  rw [show (" で起動していません。" : String).length = 11 from rfl]
  rw [show launchInstruction.length = 32 from rfl]
  omega

theorem probeTimedOutMsg_ne_notRunningMsg (u : String) :
    probeTimedOutMsg ≠ notRunningMsg u := by
  intro h
  have hl := congrArg String.length h
  rw [notRunningMsg_length] at hl
  rw [show probeTimedOutMsg.length = 57 from rfl] at hl
  omega

/-- C7: the liveness probe is skipped entirely in remote-grid mode; in local
mode a refused connection yields a `BrowserRuntimeError` whose message contains
the local-launch instruction, a timeout yields a distinct check-browser-health
message, and any other exception yields a `BrowserRuntimeError` wrapping the
original exception's class name and message; whenever the probe fails, the
scoped operations and `request` fail with that `BrowserRuntimeError` before the
page-enumeration step is reached. -/
theorem c7_liveness_probe (env : Env) (b : Browser) (url : Option String)
    (create wrapBody bodyOk : Bool) :
    (env.useRemote = true → check_chrome_running env = .ok ())
    ∧ (env.useRemote = false → env.probe = .connectError →
        check_chrome_running env =
          .error (.browserRuntimeError (notRunningMsg env.chromeDebugUrl))
        ∧ ∃ a, notRunningMsg env.chromeDebugUrl = a ++ launchInstruction)
    ∧ (env.useRemote = false → env.probe = .timedOut →
        check_chrome_running env = .error (.browserRuntimeError probeTimedOutMsg)
        ∧ probeTimedOutMsg ≠ notRunningMsg env.chromeDebugUrl)
    ∧ (∀ cls msg, env.useRemote = false → env.probe = .unexpected cls msg →
        check_chrome_running env =
          .error (.browserRuntimeError (probeUnexpectedMsg cls msg))
        ∧ probeUnexpectedMsg cls msg =
            "❌ エラー: Chrome の起動確認中に予期しないエラーが発生しました: " ++ cls ++ ": " ++ msg)
    ∧ (∀ e, check_chrome_running env = .error e →
        ((get_active_page_full env b url create).enumerated = false
          ∧ (get_active_page_full env b url create).outcome = .error e
          ∧ (scopedOperation env b url create wrapBody bodyOk).1 = .error e
          ∧ (request env b "get" url bodyOk).outcome = .error e
          ∧ ∃ msg, e = .browserRuntimeError msg)) := by
  refine ⟨?_, ?_, ?_, ?_, ?_⟩
  · intro h
    simp [check_chrome_running, h]
  · intro h1 h2
    refine ⟨by simp [check_chrome_running, h1, h2], ?_⟩
    exact ⟨"❌ エラー: Chrome が " ++ env.chromeDebugUrl ++ " で起動していません。", rfl⟩
  · intro h1 h2
    exact ⟨by simp [check_chrome_running, h1, h2], probeTimedOutMsg_ne_notRunningMsg _⟩
  · intro cls msg h1 h2
    exact ⟨by simp [check_chrome_running, h1, h2], rfl⟩
  · intro e he
    have husr : env.useRemote = false := by
      by_contra h
      rw [Bool.not_eq_false] at h
      simp [check_chrome_running, h] at he
    have hconn : get_browser_connection env b = .error e := by
      simp [get_browser_connection, husr, he]
    have hfull : get_active_page_full env b url create =
        { outcome := .error e, closes := 0, enumerated := false, gotoUrls := [] } := by
      simp [get_active_page_full, hconn]
    refine ⟨by rw [hfull], by rw [hfull], ?_, ?_, ?_⟩
    · simp [scopedOperation, hfull]
    · simp [request, he]
    · rw [check_chrome_running, if_neg (by simp [husr])] at he
      cases hp : env.probe <;> rw [hp] at he <;> simp at he <;> exact ⟨_, he.symm⟩

theorem c7_liveness_probe_witness :
    (get_active_page_full downEnv sampleBrowser none true).enumerated = false
    ∧ (scopedOperation downEnv sampleBrowser none true false true).1 =
        .error (.browserRuntimeError (notRunningMsg "http://localhost:9222"))
    ∧ (request downEnv sampleBrowser "get" none true).outcome =
        .error (.browserRuntimeError (notRunningMsg "http://localhost:9222")) := by
  have h := (c7_liveness_probe downEnv sampleBrowser none true false true).2.2.2.2
    (.browserRuntimeError (notRunningMsg "http://localhost:9222")) rfl
  exact ⟨h.1, h.2.2.1, h.2.2.2.1⟩

theorem resolveWithPage_closes (a : Page) (u : Option String) :
    (resolveWithPage a u).closes =
      if (resolveWithPage a u).outcome.isOk then 0 else 1 := by
  unfold resolveWithPage
  cases h1 : navRequested u
  · simp [Except.isOk, Except.toBool]
  · cases h2 : a.gotoOk <;> simp [Except.isOk, Except.toBool]

theorem get_active_page_closes (b : Browser) (u : Option String) (create : Bool) :
    (get_active_page b u create).closes =
      if b.contexts = [] ∨ (allEligiblePages b = [] ∧ create = false) then 2
      else if (get_active_page b u create).outcome.isOk then 0 else 1 := by
  cases hctx : b.contexts.isEmpty with
  | true =>
      have hc : b.contexts = [] := List.isEmpty_iff.mp hctx
      simp only [get_active_page, hctx]
      simp [hc]
  | false =>
      have hc : ¬ b.contexts = [] := by
        intro h
        rw [h] at hctx
        simp at hctx
      simp only [get_active_page, hctx]
      cases hel : allEligiblePages b with
      | nil => cases create <;> simp [hel, hc, resolveWithPage_closes]
      | cons f r => simp [hel, hc, resolveWithPage_closes]

theorem get_active_page_full_closes (env : Env) (b : Browser) (u : Option String)
    (create : Bool) (hok : check_chrome_running env = .ok ()) :
    get_active_page_full env b u create = get_active_page b u create := by
  unfold get_active_page_full get_browser_connection
  cases h : env.useRemote <;> simp [h, hok]

theorem useRemote_false_of_check_error {env : Env} {e : BotError}
    (h : check_chrome_running env = .error e) : env.useRemote = false := by
  by_contra hr
  rw [Bool.not_eq_false] at hr
  simp [check_chrome_running, hr] at h

theorem get_active_page_full_of_check_error {env : Env} {e : BotError}
    (h : check_chrome_running env = .error e) (b : Browser) (u : Option String)
    (create : Bool) :
    get_active_page_full env b u create =
      { outcome := .error e, closes := 0, enumerated := false, gotoUrls := [] } := by
  have husr := useRemote_false_of_check_error h
  simp [get_active_page_full, get_browser_connection, husr, h]

theorem get_active_page_spec (b : Browser) (u : Option String) (create : Bool) :
    ((get_active_page b u create).outcome.isOk = true →
      (get_active_page b u create).closes = 0)
    ∧ (b.contexts = [] ∨ (allEligiblePages b = [] ∧ create = false) →
        (get_active_page b u create).closes = 2
        ∧ (get_active_page b u create).outcome.isOk = false)
    ∧ (¬ (b.contexts = [] ∨ (allEligiblePages b = [] ∧ create = false)) →
        (get_active_page b u create).outcome.isOk = false →
        (get_active_page b u create).closes = 1) := by
  cases hctx : b.contexts.isEmpty with
  | true =>
      have hc : b.contexts = [] := List.isEmpty_iff.mp hctx
      refine ⟨?_, ?_, ?_⟩ <;> simp [get_active_page, hctx, hc, Except.isOk, Except.toBool]
  | false =>
      have hc : ¬ b.contexts = [] := by
        intro h
        rw [h] at hctx
        simp at hctx
      cases hel : allEligiblePages b with
      | nil =>
          cases create with
          | false =>
              refine ⟨?_, ?_, ?_⟩ <;>
                simp [get_active_page, hctx, hel, hc, Except.isOk, Except.toBool]
          | true =>
              have hre : get_active_page b u true =
                  resolveWithPage b.newPage (normalizeNavUrl u) := by
                simp [get_active_page, hctx, hel]
              refine ⟨?_, ?_, ?_⟩ <;> rw [hre]
              · intro h
                rw [resolveWithPage_closes, if_pos h]
              · intro hbad
                exact absurd hbad (by simp [hc])
              · intro _ h
                rw [resolveWithPage_closes, if_neg (by simp [h])]
      | cons f r =>
          have hre : get_active_page b u create =
              resolveWithPage ((find_most_recent_active_page (f :: r)).getD f)
                (normalizeNavUrl u) := by
            simp [get_active_page, hctx, hel]
          refine ⟨?_, ?_, ?_⟩ <;> rw [hre]
          · intro h
            rw [resolveWithPage_closes, if_pos h]
          · intro hbad
            rcases hbad with h | ⟨h, _⟩
            · exact absurd h hc
            · cases h
          · intro _ h
            rw [resolveWithPage_closes, if_neg (by simp [h])]

theorem scopedOperation_closes (env : Env) (b : Browser) (url : Option String)
    (create wrapBody bodyOk : Bool) :
    (scopedOperation env b url create wrapBody bodyOk).2 =
      if (get_active_page_full env b url create).outcome.isOk
      then (get_active_page_full env b url create).closes + 1
      else (get_active_page_full env b url create).closes := by
  unfold scopedOperation
  cases ho : (get_active_page_full env b url create).outcome <;>
    simp [ho, Except.isOk, Except.toBool]

theorem request_closes_eq (env : Env) (b : Browser) (url : Option String)
    (bodyOk : Bool) :
    (request env b "get" url bodyOk).closes =
      (get_active_page_full env b url true).closes := by
  unfold request
  cases hcr : check_chrome_running env with
  | error e =>
      rw [get_active_page_full_of_check_error hcr]
  | ok v =>
      rw [if_pos (by decide : strToLower "get" ∈ httpMethods)]
      cases ho : (get_active_page_full env b url true).outcome <;> simp [ho]

/-- C1 counterexample: on its success path `request` never invokes
`browser.close()` (count 0, not 1), and `get_page_source` on a zero-context
browser invokes it twice (once explicitly, once in the catch-all handler). -/
theorem c1_close_not_once_counterexample :
    (request okEnv sampleBrowser "get" none true).closes = 0
    ∧ (request okEnv sampleBrowser "get" none true).outcome = .ok ()
    ∧ (get_page_source okEnv emptyBrowser none true).2 = 2 := by
  refine ⟨?_, ?_, ?_⟩ <;> rfl

/-- C1 amended: for the seven operations that close the browser in a `finally`
block, the close count is exactly 1 on success and on operation-body failure,
and equals the resolution's own count on resolution failure — which is 0 when
the probe fails (no connection opened), 2 on the no-contexts and
no-eligible-pages failures (explicit close plus the catch-all handler's), and 1
on any other resolution failure; `request` performs no close of its own, so its
count is the resolution's (0 on success). -/
theorem c1_close_discipline_amended (env : Env) (b : Browser) (url : Option String)
    (create wrapBody bodyOk : Bool) :
    ((get_active_page_full env b url create).outcome.isOk = true →
      (get_active_page_full env b url create).closes = 0
      ∧ (scopedOperation env b url create wrapBody bodyOk).2 = 1)
    ∧ ((get_active_page_full env b url create).outcome.isOk = false →
      (scopedOperation env b url create wrapBody bodyOk).2 =
        (get_active_page_full env b url create).closes)
    ∧ (check_chrome_running env = .ok () →
      (get_active_page_full env b url create).closes =
        if b.contexts = [] ∨ (allEligiblePages b = [] ∧ create = false) then 2
        else if (get_active_page_full env b url create).outcome.isOk then 0 else 1)
    ∧ (∀ e, check_chrome_running env = .error e →
      (get_active_page_full env b url create).closes = 0
      ∧ (scopedOperation env b url create wrapBody bodyOk).2 = 0)
    ∧ (request env b "get" url bodyOk).closes =
        (get_active_page_full env b url true).closes := by
  refine ⟨?_, ?_, ?_, ?_, ?_⟩
  · intro hok
    have hcl : (get_active_page_full env b url create).closes = 0 := by
      cases hcr : check_chrome_running env with
      | error e =>
          rw [get_active_page_full_of_check_error hcr] at hok
          simp [Except.isOk, Except.toBool] at hok
      | ok v =>
          rw [get_active_page_full_closes env b url create hcr] at hok ⊢
          exact (get_active_page_spec b url create).1 hok
    refine ⟨hcl, ?_⟩
    rw [scopedOperation_closes, if_pos hok, hcl]
  · intro hbad
    rw [scopedOperation_closes, if_neg (by simp [hbad])]
  · intro hcr
    rw [get_active_page_full_closes env b url create hcr]
    have gs := get_active_page_spec b url create
    by_cases hbad : b.contexts = [] ∨ (allEligiblePages b = [] ∧ create = false)
    · rw [if_pos hbad]
      exact (gs.2.1 hbad).1
    · rw [if_neg hbad]
      cases hok : (get_active_page b url create).outcome.isOk with
      | true => simp [gs.1 hok]
      | false => simp [gs.2.2 hbad hok]
  · intro e hcr
    rw [get_active_page_full_of_check_error hcr]
    refine ⟨rfl, ?_⟩
    rw [scopedOperation_closes, get_active_page_full_of_check_error hcr]
    simp [Except.isOk, Except.toBool]
  · exact request_closes_eq env b url bodyOk

theorem c1_close_discipline_amended_witness :
    (get_active_page_full okEnv sampleBrowser none true).closes = 0
    ∧ (scopedOperation okEnv sampleBrowser none true false true).2 = 1 :=
  (c1_close_discipline_amended okEnv sampleBrowser none true false true).1 (by decide)

theorem resolveWithPage_sentinel (a : Page) {u0 : Option String}
    (h : navRequested u0 = false) : resolveWithPage a u0 = resolveWithPage a none := by
  unfold resolveWithPage
  rw [h]
  rfl

theorem navRequested_sentinel {u : String}
    (h : strToLower u ∈ ["null", "none", "undefined", ""]) :
    navRequested (normalizeNavUrl (some u)) = false := by
  by_cases he : u = ""
  · subst he
    rfl
  · have hn : normalizeNavUrl (some u) = none := by
      show (if u ≠ "" ∧ strToLower u ∈ ["null", "none", "undefined", ""] then none
            else some u) = none
      rw [if_pos ⟨he, h⟩]
    rw [hn]
    rfl

theorem get_active_page_no_nav (b : Browser) (create : Bool) {u0 : Option String}
    (h : navRequested (normalizeNavUrl u0) = false) :
    get_active_page b u0 create = get_active_page b none create := by
  have hrw : ∀ a : Page,
      resolveWithPage a (normalizeNavUrl u0) = resolveWithPage a none :=
    fun a => resolveWithPage_sentinel a h
  unfold get_active_page
  simp only [hrw]
  rfl

theorem get_active_page_none_gotoUrls (b : Browser) (create : Bool) :
    (get_active_page b none create).gotoUrls = [] := by
  cases hctx : b.contexts.isEmpty with
  | true => simp [get_active_page, hctx]
  | false =>
      cases hel : allEligiblePages b with
      | nil =>
          cases create <;>
            simp [get_active_page, hctx, hel, resolveWithPage, normalizeNavUrl, navRequested]
      | cons f r =>
          simp [get_active_page, hctx, hel, resolveWithPage, normalizeNavUrl, navRequested]

/-- Sample world with the probe up and an agent run that succeeds. -/
def okWorld : RunTaskWorld := { env := okEnv, startOk := true, agent := .success "done" }

/-- C8 counterexample: `"none"` is one of the sentinel empty tokens, yet
`run_task` — a public operation accepting a navigation URL — issues
`page.goto("none")` for it, because its `if url:` check performs no sentinel
normalization (browser_bot.py:265-271). -/
theorem c8_sentinel_counterexample :
    strToLower "none" ∈ (["null", "none", "undefined", ""] : List String)
    ∧ (run_task okWorld (some 7) 7 (some "none")).gotoUrls = ["none"] := by
  exact ⟨by decide, rfl⟩

/-- C8 amended: for every operation that resolves its page through
`_get_active_page` a sentinel navigation value (`null`/`none`/`undefined`/empty,
case-insensitive) issues no navigation call and behaves exactly like no URL at
all; `run_task`, by contrast, navigates to any non-empty URL string including
the sentinel tokens. -/
theorem c8_sentinel_amended (env : Env) (b : Browser) (create : Bool) (u : String)
    (h : strToLower u ∈ ["null", "none", "undefined", ""]) :
    get_active_page_full env b (some u) create = get_active_page_full env b none create
    ∧ (get_active_page_full env b (some u) create).gotoUrls = []
    ∧ (∀ w : RunTaskWorld, ∀ (maxSteps : Option Nat) (envMaxSteps : Nat),
        check_chrome_running w.env = .ok () → w.startOk = true →
        (run_task w maxSteps envMaxSteps (some u)).gotoUrls =
          if u = "" then [] else [u]) := by
  have h1 : get_active_page_full env b (some u) create =
      get_active_page_full env b none create := by
    unfold get_active_page_full
    cases hc : get_browser_connection env b with
    | error e => rfl
    | ok conn => exact get_active_page_no_nav conn create (navRequested_sentinel h)
  refine ⟨h1, ?_, ?_⟩
  · rw [h1]
    unfold get_active_page_full
    cases hc : get_browser_connection env b with
    | error e => rfl
    | ok conn => exact get_active_page_none_gotoUrls conn create
  · intro w maxSteps envMaxSteps hcr hso
    by_cases he : u = "" <;>
      cases hag : w.agent <;>
        simp [run_task, hcr, hso, hag, he]

theorem c8_sentinel_amended_witness :
    get_active_page_full okEnv sampleBrowser (some "NONE") true =
      get_active_page_full okEnv sampleBrowser none true
    ∧ (get_active_page_full okEnv sampleBrowser (some "NONE") true).gotoUrls = [] := by
  have h := c8_sentinel_amended okEnv sampleBrowser true "NONE" (by decide)
  exact ⟨h.1, h.2.1⟩

/-- Sample world with the probe up and the agent run timing out. -/
def timedOutWorld : RunTaskWorld := { env := okEnv, startOk := true, agent := .timedOut }

/-- C9 counterexample: an agent-task run that hits the wall-clock timeout
(`7 * 6 = 42` seconds) raises `BrowserBotTaskFailedError`, but its
`BrowserSession` close count is 0 — no enclosing scope closes the connection,
contradicting the claim that it is still closed. -/
theorem c9_run_task_counterexample :
    run_task timedOutWorld (some 7) 7 none =
      { outcome := .error (.taskFailed (agentTimedOutMsg 42)), timeoutSeconds := 42,
        sessionCloses := 0, gotoUrls := [] } := rfl

/-- C9 amended: the agent-task path imposes a wall-clock timeout of
`max_steps * 6` seconds and on expiry raises `BrowserBotTaskFailedError`, but
no path of `run_task` — success, failure or timeout — ever closes or stops the
browser session it opened. -/
theorem c9_run_task_amended (w : RunTaskWorld) (maxSteps : Option Nat)
    (envMaxSteps : Nat) (url : Option String) :
    (run_task w maxSteps envMaxSteps url).sessionCloses = 0
    ∧ (check_chrome_running w.env = .ok () → w.startOk = true →
        (run_task w maxSteps envMaxSteps url).timeoutSeconds =
          (maxSteps.getD envMaxSteps) * 6
        ∧ (w.agent = .timedOut →
            (run_task w maxSteps envMaxSteps url).outcome =
              .error (.taskFailed (agentTimedOutMsg ((maxSteps.getD envMaxSteps) * 6))))) := by
  constructor
  · cases hcr : check_chrome_running w.env with
    | error e => simp [run_task, hcr]
    | ok v =>
        cases hso : w.startOk with
        | false => simp [run_task, hcr, hso]
        | true => cases hag : w.agent <;> simp [run_task, hcr, hso, hag]
  · intro hcr hso
    cases hag : w.agent <;> simp [run_task, hcr, hso, hag]

theorem c9_run_task_amended_witness :
    (run_task timedOutWorld (some 10) 7 none).sessionCloses = 0
    ∧ (run_task timedOutWorld (some 10) 7 none).timeoutSeconds = 60
    ∧ (run_task timedOutWorld (some 10) 7 none).outcome =
        .error (.taskFailed (agentTimedOutMsg 60)) := by
  have h := c9_run_task_amended timedOutWorld (some 10) 7 none
  exact ⟨h.1, (h.2 rfl rfl).1, (h.2 rfl rfl).2 rfl⟩

/-- C10 counterexample: with the local endpoint down, a `request` call with the
unsupported method `"frobnicate"` raises `BrowserRuntimeError` (from the
liveness probe that runs first), not `BrowserBotTaskAbortedError`. -/
theorem c10_method_check_counterexample :
    (request downEnv sampleBrowser "frobnicate" none true).outcome =
      .error (.browserRuntimeError (notRunningMsg "http://localhost:9222"))
    ∧ ¬ ∃ msg, (request downEnv sampleBrowser "frobnicate" none true).outcome =
        .error (.taskAborted msg) := by
  constructor
  · rfl
  · rintro ⟨msg, hmsg⟩
    rw [show (request downEnv sampleBrowser "frobnicate" none true).outcome =
        .error (.browserRuntimeError (notRunningMsg "http://localhost:9222")) from rfl] at hmsg
    simp at hmsg

/-- C10 amended: when the liveness probe passes, a `request` whose lowercased
method is not among the seven supported ones raises
`BrowserBotTaskAbortedError` with no browser connection opened; when the probe
fails, the probe's `BrowserRuntimeError` is raised first, still with no
connection opened; methods are compared after lowercasing, so any two methods
with the same lowercase form behave identically. -/
theorem c10_method_check_amended (env : Env) (b : Browser) (method : String)
    (preloadUrl : Option String) (bodyOk : Bool) :
    (check_chrome_running env = .ok () → strToLower method ∉ httpMethods →
      request env b method preloadUrl bodyOk =
        ⟨.error (.taskAborted (unsupportedMethodMsg (strToLower method))), 0, false⟩)
    ∧ (∀ e, check_chrome_running env = .error e →
        request env b method preloadUrl bodyOk = ⟨.error e, 0, false⟩)
    ∧ (∀ m2 : String, strToLower method = strToLower m2 →
        request env b method preloadUrl bodyOk = request env b m2 preloadUrl bodyOk) := by
  refine ⟨?_, ?_, ?_⟩
  · intro hcr hm
    simp [request, hcr, hm]
  · intro e hcr
    simp [request, hcr]
  · intro m2 hm
    unfold request
    rw [hm]

theorem c10_method_check_amended_witness :
    request okEnv sampleBrowser "FROBNICATE" none true =
      ⟨.error (.taskAborted (unsupportedMethodMsg "frobnicate")), 0, false⟩
    ∧ request okEnv sampleBrowser "GET" none true =
        request okEnv sampleBrowser "get" none true := by
  constructor
  · have h := (c10_method_check_amended okEnv sampleBrowser "FROBNICATE" none true).1 rfl
      (by decide)
    rw [h]
    rfl
  · exact (c10_method_check_amended okEnv sampleBrowser "GET" none true).2.2 "get" (by decide)

end BrowserBot
